import Mathlib

/-!
Verification development for the Google Maps MCP server handlers
(`google_maps_mcp_server/handlers.py`).

Each handler is a thin validate / call-upstream / project pipeline.  The
shallow embedding below models:

* JSON-like values (`JValue`) with rationals standing in for Python floats
  (every input exercised here is exactly representable);
* Python dictionary and list primitives (`pyGet` for `dict.get` with a
  default, `pyItem` for `d[k]` subscription raising `KeyError`, `pyIter`
  for iteration, `pyIndex0` for `xs[0]` raising `IndexError`) as
  `Except String` computations, where the `String` is the message carried
  by the raised exception (`ValueError` in the handlers; the messages of
  `TypeError` and `AttributeError` are abbreviated, and `KeyError`
  messages are rendered without quote characters — no claim depends on
  those texts, while the `IndexError` text "list index out of range" is
  CPython's exact message);
* the module-global client cache as explicit state threaded through
  `get_gmaps_client`;
* the single upstream call of each handler as an explicit fixture
  argument (`Except String r`: either the value the googlemaps client
  returns or the message of the exception it raises), with each handler
  also returning the list of upstream calls it performed, including the
  parameters passed, so that "no upstream request is made" is the
  statement that this list is empty.

Numeric interpolation in f-strings is modelled by `formatQ`, which agrees
with Python for integer-valued inputs.
-/

/-- JSON-like values exchanged with the upstream service. -/
inductive JValue where
  | null : JValue
  | bool (b : Bool) : JValue
  | num (q : ℚ) : JValue
  | str (s : String) : JValue
  | arr (elems : List JValue) : JValue
  | obj (fields : List (String × JValue)) : JValue

/-- First-match association-list lookup, the semantics of a Python dict
whose insertion order is the list order. -/
def alookup {α : Type} (k : String) : List (String × α) → Option α
  | [] => none
  | (k2, v) :: rest => if k2 = k then some v else alookup k rest

/-- Python `v.get(k, d)`: total on dicts, `AttributeError` otherwise. -/
def pyGet (v : JValue) (k : String) (d : JValue) : Except String JValue :=
  match v with
  | .obj fs => .ok ((alookup k fs).getD d)
  | _ => .error "object has no attribute get"

/-- Python subscription `v[k]`: `KeyError` when the key is absent,
`TypeError` on a non-dict. -/
def pyItem (v : JValue) (k : String) : Except String JValue :=
  match v with
  | .obj fs =>
    match alookup k fs with
    | some x => .ok x
    | none => .error ("KeyError: " ++ k)
  | _ => .error "object is not subscriptable"

/-- Python iteration over a value: the elements of a list, `TypeError`
otherwise. -/
def pyIter (v : JValue) : Except String (List JValue) :=
  match v with
  | .arr xs => .ok xs
  | _ => .error "object is not iterable"

/-- Python `xs[0]` on a list value: `IndexError` on the empty list. -/
def pyIndex0 (v : JValue) : Except String JValue :=
  match v with
  | .arr [] => .error "list index out of range"
  | .arr (x :: _) => .ok x
  | _ => .error "object is not subscriptable"

/-- A Python `for` loop building a list, where an exception raised on any
element aborts the whole loop. -/
def pyTraverse {α : Type} (f : α → Except String JValue) :
    List α → Except String (List JValue)
  | [] => .ok []
  | x :: xs => do
    let y ← f x
    let ys ← pyTraverse f xs
    .ok (y :: ys)

/-- The upstream client handle: `googlemaps.Client(key=...)` holds only
configuration. -/
structure Client where
  key : String
deriving DecidableEq, Repr

/-- Python truthiness of the `GOOGLE_MAPS_API_KEY` environment value:
`not GOOGLE_MAPS_API_KEY` is true when the variable is unset or empty. -/
def keyFalsy : Option String → Bool
  | none => true
  | some s => s = ""

/-- Message of the error raised when the credential is missing. -/
def configMsg : String := "GOOGLE_MAPS_API_KEY environment variable is not set"

/-- Embedding of `get_gmaps_client`: the module-global `gmaps` cache is
passed in and the (possibly updated) cache is returned next to the handle. -/
def get_gmaps_client (apiKey : Option String) (gmaps : Option Client) :
    Except String (Client × Option Client) :=
  match gmaps with
  | some c => .ok (c, some c)
  | none =>
    if keyFalsy apiKey then .error configMsg
    else
      let c : Client := ⟨apiKey.getD ""⟩
      .ok (c, some c)

/-- Projection of the first geocoding result, with the subscriptions in
the evaluation order of the Python dict literal. -/
def projectGeocodeResult (result : JValue) : Except String JValue := do
  let geometry ← pyItem result "geometry"
  let location ← pyItem geometry "location"
  let formatted ← pyItem result "formatted_address"
  let pid ← pyItem result "place_id"
  .ok (.obj [("location", location), ("formatted_address", formatted),
             ("place_id", pid)])

/-- Embedding of `maps_geocode`.  `fx` is the outcome of the one
`gmaps_client.geocode(address)` call; the second component lists the
addresses actually sent upstream. -/
def maps_geocode (apiKey : Option String) (gmaps : Option Client)
    (fx : Except String (List JValue)) (address : String) :
    Except String JValue × List String :=
  if address = "" then (.error "address parameter is required", [])
  else
    match get_gmaps_client apiKey gmaps with
    | .error e => (.error ("Geocoding error: " ++ e), [])
    | .ok _ =>
      match fx with
      | .error e => (.error ("Geocoding error: " ++ e), [address])
      | .ok [] =>
        (.error ("Geocoding error: " ++ "No results found for the given address"),
         [address])
      | .ok (result :: _) =>
        match projectGeocodeResult result with
        | .error e => (.error ("Geocoding error: " ++ e), [address])
        | .ok v => (.ok v, [address])

/-- Projection of the first reverse-geocoding result. -/
def projectReverseResult (result : JValue) : Except String JValue := do
  let formatted ← pyItem result "formatted_address"
  let pid ← pyItem result "place_id"
  let comps ← pyItem result "address_components"
  .ok (.obj [("formatted_address", formatted), ("place_id", pid),
             ("address_components", comps)])

/-- Embedding of `maps_reverse_geocode`.  The coordinates are `Option ℚ`
because the handler checks them against `None` before the range checks;
the second component lists the coordinate pairs sent upstream. -/
def maps_reverse_geocode (apiKey : Option String) (gmaps : Option Client)
    (fx : Except String (List JValue)) (latitude longitude : Option ℚ) :
    Except String JValue × List (ℚ × ℚ) :=
  match latitude, longitude with
  | none, _ => (.error "latitude and longitude parameters are required", [])
  | some _, none => (.error "latitude and longitude parameters are required", [])
  | some lat, some lng =>
    if -90 ≤ lat ∧ lat ≤ 90 then
      if -180 ≤ lng ∧ lng ≤ 180 then
        match get_gmaps_client apiKey gmaps with
        | .error e => (.error ("Reverse geocoding error: " ++ e), [])
        | .ok _ =>
          match fx with
          | .error e => (.error ("Reverse geocoding error: " ++ e), [(lat, lng)])
          | .ok [] =>
            (.error ("Reverse geocoding error: " ++
               "No results found for the given coordinates"), [(lat, lng)])
          | .ok (result :: _) =>
            match projectReverseResult result with
            | .error e => (.error ("Reverse geocoding error: " ++ e), [(lat, lng)])
            | .ok v => (.ok v, [(lat, lng)])
      else (.error "longitude must be between -180 and 180", [])
    else (.error "latitude must be between -90 and 90", [])

/-- Parameters of one upstream `gmaps_client.places(query=query, **search_params)`
call: the optional keys of `search_params` are `none` when absent. -/
structure PlacesParams where
  query : String
  location : Option (ℚ × ℚ)
  radius : Option ℤ
deriving DecidableEq, Repr

/-- Python truthiness of the `location` argument: `None` and the empty
dict are falsy. -/
def locationTruthy : Option (List (String × ℚ)) → Bool
  | none => false
  | some fs => !fs.isEmpty

/-- Python truthiness of the `radius` argument: `None` and `0` are falsy. -/
def radiusTruthy : Option ℤ → Bool
  | none => false
  | some r => decide (r ≠ 0)

/-- The guard `radius is not None and (radius <= 0 or radius > 50000)`. -/
def radiusBad : Option ℤ → Bool
  | none => false
  | some r => decide (r ≤ 0 ∨ 50000 < r)

/-- Projection of one places result, `.get` defaults as in the source. -/
def projectPlace (place : JValue) : Except String JValue := do
  let name ← pyGet place "name" (.str "")
  let formatted ← pyGet place "formatted_address" (.str "")
  let geometry ← pyGet place "geometry" (.obj [])
  let location ← pyGet geometry "location" (.obj [])
  let pid ← pyGet place "place_id" (.str "")
  let rating ← pyGet place "rating" .null
  let types ← pyGet place "types" (.arr [])
  .ok (.obj [("name", name), ("formatted_address", formatted),
             ("location", location), ("place_id", pid), ("rating", rating),
             ("types", types)])

/-- Projection of the whole places response. -/
def placesProject (results : JValue) : Except String JValue := do
  let rs ← pyGet results "results" (.arr [])
  let xs ← pyIter rs
  let places ← pyTraverse projectPlace xs
  .ok (.obj [("places", .arr places)])

/-- Embedding of `maps_search_places`.  `fx` is the outcome of the one
upstream `places` call; the second component records the calls made,
with the exact parameters passed. -/
def maps_search_places (apiKey : Option String) (gmaps : Option Client)
    (fx : Except String JValue) (query : String)
    (location : Option (List (String × ℚ))) (radius : Option ℤ) :
    Except String JValue × List PlacesParams :=
  if query = "" then (.error "query parameter is required", [])
  else if radiusBad radius then
    (.error "radius must be between 1 and 50000 meters", [])
  else
    match get_gmaps_client apiKey gmaps with
    | .error e => (.error ("Places search error: " ++ e), [])
    | .ok _ =>
      let checked : Except String (Option (ℚ × ℚ)) :=
        if locationTruthy location then
          let fs := location.getD []
          match alookup "latitude" fs, alookup "longitude" fs with
          | some la, some lo =>
            if radiusTruthy radius then .ok (some (la, lo)) else .ok none
          | some _, none => .error "location must contain both latitude and longitude"
          | none, _ => .error "location must contain both latitude and longitude"
        else .ok none
      match checked with
      | .error e => (.error ("Places search error: " ++ e), [])
      | .ok bias =>
        let params : PlacesParams :=
          ⟨query, bias, if bias.isSome then radius else none⟩
        match fx with
        | .error e => (.error ("Places search error: " ++ e), [params])
        | .ok results =>
          match placesProject results with
          | .error e => (.error ("Places search error: " ++ e), [params])
          | .ok v => (.ok v, [params])

/-- Parameters of one upstream `place` call. -/
structure PDParams where
  place_id : String
  fields : List String
deriving DecidableEq, Repr

/-- The fixed field list requested by `maps_place_details`. -/
def detailFields : List String :=
  ["name", "formatted_address", "geometry", "formatted_phone_number",
   "website", "rating", "reviews", "opening_hours"]

/-- Projection of one review with the source's numeric and string defaults. -/
def projectReview (review : JValue) : Except String JValue := do
  let author ← pyGet review "author_name" (.str "")
  let rating ← pyGet review "rating" (.num 0)
  let text ← pyGet review "text" (.str "")
  let time ← pyGet review "time" (.num 0)
  .ok (.obj [("author_name", author), ("rating", rating), ("text", text),
             ("time", time)])

/-- Projection of the whole place-details response. -/
def placeDetailsProject (result : JValue) : Except String JValue := do
  let place_data ← pyGet result "result" (.obj [])
  let reviewsRaw ← pyGet place_data "reviews" (.arr [])
  let reviewsL ← pyIter reviewsRaw
  let reviews ← pyTraverse projectReview reviewsL
  let name ← pyGet place_data "name" (.str "")
  let formatted ← pyGet place_data "formatted_address" (.str "")
  let geometry ← pyGet place_data "geometry" (.obj [])
  let location ← pyGet geometry "location" (.obj [])
  let phone ← pyGet place_data "formatted_phone_number" (.str "")
  let website ← pyGet place_data "website" (.str "")
  let rating ← pyGet place_data "rating" .null
  let hours ← pyGet place_data "opening_hours" (.obj [])
  .ok (.obj [("name", name), ("formatted_address", formatted),
             ("location", location), ("formatted_phone_number", phone),
             ("website", website), ("rating", rating),
             ("reviews", .arr reviews), ("opening_hours", hours)])

/-- Embedding of `maps_place_details`. -/
def maps_place_details (apiKey : Option String) (gmaps : Option Client)
    (fx : Except String JValue) (place_id : String) :
    Except String JValue × List PDParams :=
  if place_id = "" then (.error "place_id parameter is required", [])
  else
    match get_gmaps_client apiKey gmaps with
    | .error e => (.error ("Place details error: " ++ e), [])
    | .ok _ =>
      let params : PDParams := ⟨place_id, detailFields⟩
      match fx with
      | .error e => (.error ("Place details error: " ++ e), [params])
      | .ok result =>
        match placeDetailsProject result with
        | .error e => (.error ("Place details error: " ++ e), [params])
        | .ok v => (.ok v, [params])

/-- The mode whitelist shared by distance matrix and directions. -/
def valid_modes : List String := ["driving", "walking", "bicycling", "transit"]

/-- Message of the rejection of an invalid mode, the f-string with the
joined whitelist. -/
def modeMsg : String :=
  "mode must be one of: " ++ String.intercalate ", " valid_modes

/-- Parameters of one upstream `distance_matrix` call. -/
structure DMParams where
  origins : List String
  destinations : List String
  mode : String
  units : String
deriving DecidableEq, Repr

/-- Projection of one distance-matrix element. -/
def projectElement (element : JValue) : Except String JValue := do
  let status ← pyGet element "status" (.str "")
  let duration ← pyGet element "duration" .null
  let distance ← pyGet element "distance" .null
  .ok (.obj [("status", status), ("duration", duration), ("distance", distance)])

/-- Projection of one distance-matrix row. -/
def projectRow (row : JValue) : Except String JValue := do
  let elementsRaw ← pyGet row "elements" (.arr [])
  let elementsL ← pyIter elementsRaw
  let elements ← pyTraverse projectElement elementsL
  .ok (.obj [("elements", .arr elements)])

/-- Projection of the whole distance-matrix response. -/
def dmProject (result : JValue) : Except String JValue := do
  let rowsRaw ← pyGet result "rows" (.arr [])
  let rowsL ← pyIter rowsRaw
  let results ← pyTraverse projectRow rowsL
  let origins ← pyGet result "origin_addresses" (.arr [])
  let destinations ← pyGet result "destination_addresses" (.arr [])
  .ok (.obj [("origin_addresses", origins),
             ("destination_addresses", destinations),
             ("results", .arr results)])

/-- Embedding of `maps_distance_matrix`. -/
def maps_distance_matrix (apiKey : Option String) (gmaps : Option Client)
    (fx : Except String JValue) (origins destinations : List String)
    (mode : String) : Except String JValue × List DMParams :=
  if origins = [] then
    (.error "origins parameter is required and cannot be empty", [])
  else if destinations = [] then
    (.error "destinations parameter is required and cannot be empty", [])
  else if mode ∈ valid_modes then
    match get_gmaps_client apiKey gmaps with
    | .error e => (.error ("Distance matrix error: " ++ e), [])
    | .ok _ =>
      let params : DMParams := ⟨origins, destinations, mode, "imperial"⟩
      match fx with
      | .error e => (.error ("Distance matrix error: " ++ e), [params])
      | .ok result =>
        match dmProject result with
        | .error e => (.error ("Distance matrix error: " ++ e), [params])
        | .ok v => (.ok v, [params])
  else (.error modeMsg, [])

/-- Embedding of the Python default argument `mode="driving"`: the call
shape used when the caller omits `mode`. -/
def maps_distance_matrix_nomode (apiKey : Option String) (gmaps : Option Client)
    (fx : Except String JValue) (origins destinations : List String) :
    Except String JValue × List DMParams :=
  maps_distance_matrix apiKey gmaps fx origins destinations "driving"

/-- Rendering of a rational in a Python f-string; agrees with Python for
integer-valued inputs. -/
def formatQ (q : ℚ) : String :=
  if q.den = 1 then toString q.num
  else toString q.num ++ "/" ++ toString q.den

/-- The validation loop of `maps_elevation`: membership check, then the
latitude range, then the longitude range, aborting at the first failure;
on success the list of coordinate tuples in input order. -/
def validateLocations : List (List (String × ℚ)) → Except String (List (ℚ × ℚ))
  | [] => .ok []
  | loc :: rest =>
    match alookup "latitude" loc, alookup "longitude" loc with
    | some lat, some lng =>
      if -90 ≤ lat ∧ lat ≤ 90 then
        if -180 ≤ lng ∧ lng ≤ 180 then
          match validateLocations rest with
          | .error e => .error e
          | .ok tl => .ok ((lat, lng) :: tl)
        else .error ("longitude " ++ formatQ lng ++ " must be between -180 and 180")
      else .error ("latitude " ++ formatQ lat ++ " must be between -90 and 90")
    | some _, none => .error "Each location must contain both latitude and longitude"
    | none, _ => .error "Each location must contain both latitude and longitude"

/-- Projection of one elevation result. -/
def projectElevation (er : JValue) : Except String JValue := do
  let elevation ← pyGet er "elevation" (.num 0)
  let location ← pyGet er "location" (.obj [])
  let resolution ← pyGet er "resolution" (.num 0)
  .ok (.obj [("elevation", elevation), ("location", location),
             ("resolution", resolution)])

/-- Embedding of `maps_elevation`.  The second component records the one
upstream call with the tuple list passed to it. -/
def maps_elevation (apiKey : Option String) (gmaps : Option Client)
    (fx : Except String (List JValue)) (locations : List (List (String × ℚ))) :
    Except String JValue × List (List (ℚ × ℚ)) :=
  if locations = [] then
    (.error "locations parameter is required and cannot be empty", [])
  else
    match validateLocations locations with
    | .error e => (.error e, [])
    | .ok tuples =>
      match get_gmaps_client apiKey gmaps with
      | .error e => (.error ("Elevation error: " ++ e), [])
      | .ok _ =>
        match fx with
        | .error e => (.error ("Elevation error: " ++ e), [tuples])
        | .ok ers =>
          match pyTraverse projectElevation ers with
          | .error e => (.error ("Elevation error: " ++ e), [tuples])
          | .ok rs => (.ok (.obj [("results", .arr rs)]), [tuples])

/-- Parameters of one upstream `directions` call. -/
structure DirParams where
  origin : String
  destination : String
  mode : String
  units : String
deriving DecidableEq, Repr

/-- Projection of one directions step, `.get` defaults as in the source;
`html_instructions` is copied verbatim into `instructions`. -/
def projectStep (step : JValue) : Except String JValue := do
  let instructions ← pyGet step "html_instructions" (.str "")
  let distance ← pyGet step "distance" .null
  let duration ← pyGet step "duration" .null
  let travel_mode ← pyGet step "travel_mode" (.str "")
  .ok (.obj [("instructions", instructions), ("distance", distance),
             ("duration", duration), ("travel_mode", travel_mode)])

/-- Projection of one directions route: `route.get("legs", [{}])[0]`
followed by the step loop and the route dict literal, in evaluation
order. -/
def projectRouteCode (route : JValue) : Except String JValue := do
  let legsV ← pyGet route "legs" (.arr [.obj []])
  let leg ← pyIndex0 legsV
  let stepsV ← pyGet leg "steps" (.arr [])
  let stepsL ← pyIter stepsV
  let steps ← pyTraverse projectStep stepsL
  let summary ← pyGet route "summary" (.str "")
  let distance ← pyGet leg "distance" .null
  let duration ← pyGet leg "duration" .null
  .ok (.obj [("summary", summary), ("distance", distance),
             ("duration", duration), ("steps", .arr steps)])

/-- Embedding of `maps_directions`. -/
def maps_directions (apiKey : Option String) (gmaps : Option Client)
    (fx : Except String (List JValue)) (origin destination mode : String) :
    Except String JValue × List DirParams :=
  if origin = "" then (.error "origin parameter is required", [])
  else if destination = "" then (.error "destination parameter is required", [])
  else if mode ∈ valid_modes then
    match get_gmaps_client apiKey gmaps with
    | .error e => (.error ("Directions error: " ++ e), [])
    | .ok _ =>
      let params : DirParams := ⟨origin, destination, mode, "imperial"⟩
      match fx with
      | .error e => (.error ("Directions error: " ++ e), [params])
      | .ok result =>
        match pyTraverse projectRouteCode result with
        | .error e => (.error ("Directions error: " ++ e), [params])
        | .ok routes => (.ok (.obj [("routes", .arr routes)]), [params])
  else (.error modeMsg, [])

/-- Embedding of the Python default argument `mode="driving"` of
`maps_directions`. -/
def maps_directions_nomode (apiKey : Option String) (gmaps : Option Client)
    (fx : Except String (List JValue)) (origin destination : String) :
    Except String JValue × List DirParams :=
  maps_directions apiKey gmaps fx origin destination "driving"

/-- Total dict lookup with a default, for the spec-side description. -/
def jget (v : JValue) (k : String) (d : JValue) : JValue :=
  match v with
  | .obj fs => (alookup k fs).getD d
  | _ => d

/-- The first leg of a route, as the spec phrases it ("collapse to its
first leg only"). -/
def firstLeg (route : JValue) : JValue :=
  match jget route "legs" (.arr []) with
  | .arr (l :: _) => l
  | _ => .obj []

/-- Spec-side description of one step of a directions route: instructions
taken verbatim from `html_instructions`, then distance, duration and
travel mode. -/
def specStepProj (step : JValue) : JValue :=
  .obj [("instructions", jget step "html_instructions" (.str "")),
        ("distance", jget step "distance" .null),
        ("duration", jget step "duration" .null),
        ("travel_mode", jget step "travel_mode" (.str ""))]

/-- The steps carried by a leg, for the spec-side description. -/
def specLegSteps (leg : JValue) : List JValue :=
  match jget leg "steps" (.arr []) with
  | .arr xs => xs
  | _ => []

/-- Spec-side description of one projected route, written from the spec's
words: collapse to the first leg only; summary from the route, distance
and duration from that leg, and the projected steps of that leg. -/
def specRoute (route : JValue) : JValue :=
  .obj [("summary", jget route "summary" (.str "")),
        ("distance", jget (firstLeg route) "distance" .null),
        ("duration", jget (firstLeg route) "duration" .null),
        ("steps", .arr ((specLegSteps (firstLeg route)).map specStepProj))]

/-- Well-formedness of a step for the refinement statement: a dict. -/
def stepOk : JValue → Bool
  | .obj _ => true
  | _ => false

/-- Well-formedness of the steps of a leg: absent, or a list of dicts. -/
def legStepsOk (leg : JValue) : Bool :=
  match leg with
  | .obj fs =>
    match alookup "steps" fs with
    | none => true
    | some (.arr xs) => xs.all stepOk
    | some _ => false
  | _ => false

/-- Well-formedness of a route for the refinement statement: a dict whose
`legs` entry is a non-empty list headed by a well-formed leg. -/
def routeOk (route : JValue) : Bool :=
  match route with
  | .obj fs =>
    match alookup "legs" fs with
    | some (.arr (leg :: _)) => legStepsOk leg
    | _ => false
  | _ => false

/-- Validity of one elevation coordinate dict: both fields present and in
range. -/
def locOk (loc : List (String × ℚ)) : Bool :=
  match alookup "latitude" loc, alookup "longitude" loc with
  | some lat, some lng =>
    decide ((-90 ≤ lat ∧ lat ≤ 90) ∧ (-180 ≤ lng ∧ lng ≤ 180))
  | _, _ => false

/-- A concrete directions step fixture used in closed instantiations. -/
def demoStep : JValue :=
  .obj [("html_instructions", .str "Turn <b>left</b> onto Main St"),
        ("distance", .obj [("text", .str "0.3 mi"), ("value", .num 483)]),
        ("duration", .obj [("text", .str "1 min"), ("value", .num 60)]),
        ("travel_mode", .str "DRIVING")]

/-- A concrete directions leg fixture. -/
def demoLeg : JValue :=
  .obj [("steps", .arr [demoStep]),
        ("distance", .obj [("text", .str "0.3 mi"), ("value", .num 483)]),
        ("duration", .obj [("text", .str "1 min"), ("value", .num 60)])]

/-- A concrete two-leg route fixture; only the first leg should surface. -/
def demoRoute : JValue :=
  .obj [("summary", .str "I-280 N"), ("legs", .arr [demoLeg, .obj []])]

/-- C8: on first invocation with the credential absent, `get_gmaps_client`
fails with the configuration error; on first successful invocation it
constructs the client handle exactly once and caches it; every invocation
on a populated cache returns the cached handle with the cache unchanged,
performing no reconstruction. -/
theorem get_client_config_and_cache (apiKey : Option String) :
    (keyFalsy apiKey = true → get_gmaps_client apiKey none = .error configMsg) ∧
    (∀ k : String, apiKey = some k → k ≠ "" →
      get_gmaps_client apiKey none = .ok (⟨k⟩, some ⟨k⟩)) ∧
    (∀ c : Client, get_gmaps_client apiKey (some c) = .ok (c, some c)) := by
  refine ⟨?_, ?_, ?_⟩
  · intro h
    simp [get_gmaps_client, h]
  · intro k hk hne
    subst hk
    simp [get_gmaps_client, keyFalsy, hne]
  · intro c
    rfl

theorem get_client_config_and_cache_check :
    get_gmaps_client (some "") none = .error configMsg ∧
    get_gmaps_client (some "key") none = .ok (⟨"key"⟩, some ⟨"key"⟩) ∧
    get_gmaps_client (some "key") (some ⟨"key"⟩) = .ok (⟨"key"⟩, some ⟨"key"⟩) :=
  ⟨(get_client_config_and_cache (some "")).1 rfl,
   (get_client_config_and_cache (some "key")).2.1 "key" rfl (by decide),
   (get_client_config_and_cache (some "key")).2.2 ⟨"key"⟩⟩

/-- C1: an out-of-range latitude or longitude makes `maps_reverse_geocode`
fail with the matching validation message while the upstream client is
never invoked (the recorded call list is empty); for in-range coordinates
the range checks accept and, with a constructible client, exactly the one
upstream reverse-geocoding call with those coordinates is made. -/
theorem reverse_geocode_range_gate (apiKey : Option String)
    (gmaps : Option Client) (fx : Except String (List JValue)) (lat lng : ℚ) :
    (¬(-90 ≤ lat ∧ lat ≤ 90) →
      maps_reverse_geocode apiKey gmaps fx (some lat) (some lng) =
        (.error "latitude must be between -90 and 90", [])) ∧
    ((-90 ≤ lat ∧ lat ≤ 90) → ¬(-180 ≤ lng ∧ lng ≤ 180) →
      maps_reverse_geocode apiKey gmaps fx (some lat) (some lng) =
        (.error "longitude must be between -180 and 180", [])) ∧
    (∀ cg : Client × Option Client,
      (-90 ≤ lat ∧ lat ≤ 90) → (-180 ≤ lng ∧ lng ≤ 180) →
      get_gmaps_client apiKey gmaps = .ok cg →
      (maps_reverse_geocode apiKey gmaps fx (some lat) (some lng)).2 =
        [(lat, lng)]) := by
  refine ⟨?_, ?_, ?_⟩
  · intro h
    simp [maps_reverse_geocode, h]
  · intro h1 h2
    simp [maps_reverse_geocode, h1, h2]
  · intro cg h1 h2 hc
    simp only [maps_reverse_geocode, if_pos h1, if_pos h2, hc]
    rcases fx with e | rs
    · rfl
    · rcases rs with _ | ⟨r, rest⟩
      · rfl
      · rcases h : projectReverseResult r with e | v <;> simp [h]

theorem reverse_geocode_range_gate_check :
    maps_reverse_geocode (some "k") none (.ok []) (some 91) (some 0) =
      (.error "latitude must be between -90 and 90", []) ∧
    maps_reverse_geocode (some "k") none (.ok []) (some 0) (some 181) =
      (.error "longitude must be between -180 and 180", []) ∧
    (maps_reverse_geocode (some "k") none (.ok []) (some 10) (some 20)).2 =
      [(10, 20)] :=
  ⟨(reverse_geocode_range_gate (some "k") none (.ok []) 91 0).1 (by norm_num),
   (reverse_geocode_range_gate (some "k") none (.ok []) 0 181).2.1
     (by norm_num) (by norm_num),
   (reverse_geocode_range_gate (some "k") none (.ok []) 10 20).2.2
     (⟨"k"⟩, some ⟨"k"⟩) (by norm_num) (by norm_num) rfl⟩

/-- C9: every handler is a deterministic function of its arguments and the
upstream fixture; in particular its projected output does not depend on
the only mutable process state, the client cache, so repeated calls with
identical input — between which the cache moves from empty to populated —
produce identical output. -/
theorem handlers_cache_independent (k : String) (hk : k ≠ "") :
    (∀ fx a, maps_geocode (some k) none fx a =
      maps_geocode (some k) (some ⟨k⟩) fx a) ∧
    (∀ fx la lo, maps_reverse_geocode (some k) none fx la lo =
      maps_reverse_geocode (some k) (some ⟨k⟩) fx la lo) ∧
    (∀ fx q l r, maps_search_places (some k) none fx q l r =
      maps_search_places (some k) (some ⟨k⟩) fx q l r) ∧
    (∀ fx p, maps_place_details (some k) none fx p =
      maps_place_details (some k) (some ⟨k⟩) fx p) ∧
    (∀ fx o d m, maps_distance_matrix (some k) none fx o d m =
      maps_distance_matrix (some k) (some ⟨k⟩) fx o d m) ∧
    (∀ fx ls, maps_elevation (some k) none fx ls =
      maps_elevation (some k) (some ⟨k⟩) fx ls) ∧
    (∀ fx o d m, maps_directions (some k) none fx o d m =
      maps_directions (some k) (some ⟨k⟩) fx o d m) := by
  have hacc : get_gmaps_client (some k) none =
      get_gmaps_client (some k) (some ⟨k⟩) := by
    simp [get_gmaps_client, keyFalsy, hk]
  refine ⟨?_, ?_, ?_, ?_, ?_, ?_, ?_⟩ <;> intros
  · unfold maps_geocode; rw [hacc]
  · unfold maps_reverse_geocode; rw [hacc]
  · unfold maps_search_places; rw [hacc]
  · unfold maps_place_details; rw [hacc]
  · unfold maps_distance_matrix; rw [hacc]
  · unfold maps_elevation; rw [hacc]
  · unfold maps_directions; rw [hacc]

theorem handlers_cache_independent_check :
    maps_geocode (some "KEY") none (.ok []) "addr" =
      maps_geocode (some "KEY") (some ⟨"KEY"⟩) (.ok []) "addr" :=
  (handlers_cache_independent "KEY" (by decide)).1 (.ok []) "addr"

/-- C4: a mode outside the whitelist makes `maps_distance_matrix` and
`maps_directions` fail with the whitelist message and perform no upstream
call, and the call shape used when `mode` is omitted is the call with
`"driving"`, a whitelisted mode. -/
theorem mode_whitelist (mode : String) (hm : mode ∉ valid_modes) :
    (∀ apiKey gmaps fx origins destinations, origins ≠ [] → destinations ≠ [] →
      maps_distance_matrix apiKey gmaps fx origins destinations mode =
        (.error modeMsg, [])) ∧
    (∀ apiKey gmaps fx origin destination, origin ≠ "" → destination ≠ "" →
      maps_directions apiKey gmaps fx origin destination mode =
        (.error modeMsg, [])) ∧
    (∀ apiKey gmaps fx origins destinations,
      maps_distance_matrix_nomode apiKey gmaps fx origins destinations =
        maps_distance_matrix apiKey gmaps fx origins destinations "driving") ∧
    (∀ apiKey gmaps fx origin destination,
      maps_directions_nomode apiKey gmaps fx origin destination =
        maps_directions apiKey gmaps fx origin destination "driving") ∧
    "driving" ∈ valid_modes := by
  refine ⟨?_, ?_, fun _ _ _ _ _ => rfl, fun _ _ _ _ _ => rfl, by decide⟩
  · intro apiKey gmaps fx origins destinations h1 h2
    simp [maps_distance_matrix, h1, h2, hm]
  · intro apiKey gmaps fx origin destination h1 h2
    simp [maps_directions, h1, h2, hm]

theorem mode_whitelist_check :
    maps_distance_matrix (some "k") none (.ok (.obj [])) ["a"] ["b"] "flying" =
      (.error modeMsg, []) ∧
    maps_directions (some "k") none (.ok []) "a" "b" "flying" =
      (.error modeMsg, []) :=
  ⟨(mode_whitelist "flying" (by decide)).1 (some "k") none (.ok (.obj []))
     ["a"] ["b"] (by decide) (by decide),
   (mode_whitelist "flying" (by decide)).2.1 (some "k") none (.ok [])
     "a" "b" (by decide) (by decide)⟩

/-- C5 (amended): zero upstream results make `maps_geocode` and
`maps_reverse_geocode` fail with the fixed not-found message, but that
message is wrapped with the same tool-specific prefix — and surfaces as the
same error kind — as an upstream failure, whose original message the prefix
preserves; the two failure cases are distinguishable only by message text. -/
theorem zero_results_wrapping (apiKey : Option String) (gmaps : Option Client)
    (cg : Client × Option Client)
    (hc : get_gmaps_client apiKey gmaps = .ok cg) :
    (∀ address : String, address ≠ "" →
      maps_geocode apiKey gmaps (.ok []) address =
        (.error "Geocoding error: No results found for the given address",
         [address])) ∧
    (∀ (address e : String), address ≠ "" →
      maps_geocode apiKey gmaps (.error e) address =
        (.error ("Geocoding error: " ++ e), [address])) ∧
    (∀ lat lng : ℚ, (-90 ≤ lat ∧ lat ≤ 90) → (-180 ≤ lng ∧ lng ≤ 180) →
      maps_reverse_geocode apiKey gmaps (.ok []) (some lat) (some lng) =
        (.error
          "Reverse geocoding error: No results found for the given coordinates",
         [(lat, lng)])) ∧
    (∀ (lat lng : ℚ) (e : String),
      (-90 ≤ lat ∧ lat ≤ 90) → (-180 ≤ lng ∧ lng ≤ 180) →
      maps_reverse_geocode apiKey gmaps (.error e) (some lat) (some lng) =
        (.error ("Reverse geocoding error: " ++ e), [(lat, lng)])) := by
  refine ⟨?_, ?_, ?_, ?_⟩
  · intro address h
    simp [maps_geocode, h, hc]
  · intro address e h
    simp [maps_geocode, h, hc]
  · intro lat lng h1 h2
    simp [maps_reverse_geocode, h1, h2, hc]
  · intro lat lng e h1 h2
    simp [maps_reverse_geocode, h1, h2, hc]

theorem zero_results_wrapping_check :
    maps_geocode (some "k") none (.ok []) "addr" =
      (.error "Geocoding error: No results found for the given address",
       ["addr"]) ∧
    maps_reverse_geocode (some "k") none (.error "quota exceeded")
        (some 1) (some 2) =
      (.error "Reverse geocoding error: quota exceeded", [(1, 2)]) :=
  ⟨(zero_results_wrapping (some "k") none (⟨"k"⟩, some ⟨"k"⟩) rfl).1
     "addr" (by decide),
   (zero_results_wrapping (some "k") none (⟨"k"⟩, some ⟨"k"⟩) rfl).2.2.2
     1 2 "quota exceeded" (by norm_num) (by norm_num)⟩

/-- C5 counterexample: the zero-result failure of `maps_geocode` is not a
failure kind distinct from an upstream failure — the call with zero
upstream results is indistinguishable from the call whose upstream raises
with the not-found text, both yielding the same wrapped error. -/
theorem zero_results_not_distinct_kind :
    maps_geocode (some "k") none (.ok []) "addr" =
      maps_geocode (some "k") none
        (.error "No results found for the given address") "addr" ∧
    maps_geocode (some "k") none (.ok []) "addr" =
      (.error "Geocoding error: No results found for the given address",
       ["addr"]) := by
  exact ⟨rfl, rfl⟩

theorem validateLocations_cons_error (loc : List (String × ℚ))
    (tail : List (List (String × ℚ))) (m : String)
    (h : locOk loc = true) (ht : validateLocations tail = .error m) :
    validateLocations (loc :: tail) = .error m := by
  unfold locOk at h
  cases hla : alookup "latitude" loc with
  | none => rw [hla] at h; simp at h
  | some lat =>
    cases hlo : alookup "longitude" loc with
    | none => rw [hla, hlo] at h; simp at h
    | some lng =>
      rw [hla, hlo] at h
      simp only [decide_eq_true_eq] at h
      simp only [validateLocations, hla, hlo]
      rw [if_pos h.1, if_pos h.2, ht]

theorem validateLocations_prefix_error (good tail : List (List (String × ℚ)))
    (m : String) (hg : ∀ l ∈ good, locOk l = true)
    (ht : validateLocations tail = .error m) :
    validateLocations (good ++ tail) = .error m := by
  induction good with
  | nil => simpa using ht
  | cons l ls ih =>
    have h1 : locOk l = true := hg l (by simp)
    have h2 : validateLocations (ls ++ tail) = .error m :=
      ih (fun x hx => hg x (by simp [hx]))
    simpa using validateLocations_cons_error l (ls ++ tail) m h1 h2

/-- C2 (amended): all coordinates of `maps_elevation` are validated before
any upstream call; the first invalid coordinate — after any prefix of valid
ones — aborts the whole request with a validation error and zero upstream
calls; an out-of-range latitude or longitude yields a message naming the
offending value, while a coordinate missing a field yields the fixed
generic membership message. -/
theorem elevation_first_invalid_aborts (good rest : List (List (String × ℚ)))
    (hg : ∀ l ∈ good, locOk l = true) (apiKey : Option String)
    (gmaps : Option Client) (fx : Except String (List JValue)) :
    (∀ loc : List (String × ℚ),
      alookup "latitude" loc = none ∨ alookup "longitude" loc = none →
      maps_elevation apiKey gmaps fx (good ++ loc :: rest) =
        (.error "Each location must contain both latitude and longitude",
         [])) ∧
    (∀ (loc : List (String × ℚ)) (lat lng : ℚ),
      alookup "latitude" loc = some lat → alookup "longitude" loc = some lng →
      ¬(-90 ≤ lat ∧ lat ≤ 90) →
      maps_elevation apiKey gmaps fx (good ++ loc :: rest) =
        (.error ("latitude " ++ formatQ lat ++ " must be between -90 and 90"),
         [])) ∧
    (∀ (loc : List (String × ℚ)) (lat lng : ℚ),
      alookup "latitude" loc = some lat → alookup "longitude" loc = some lng →
      (-90 ≤ lat ∧ lat ≤ 90) → ¬(-180 ≤ lng ∧ lng ≤ 180) →
      maps_elevation apiKey gmaps fx (good ++ loc :: rest) =
        (.error
          ("longitude " ++ formatQ lng ++ " must be between -180 and 180"),
         [])) := by
  refine ⟨?_, ?_, ?_⟩
  · intro loc hmiss
    have hv : validateLocations (loc :: rest) =
        .error "Each location must contain both latitude and longitude" := by
      unfold validateLocations
      rcases hmiss with hla | hlo
      · rw [hla]
      · rw [hlo]
        cases alookup "latitude" loc <;> rfl
    have hall := validateLocations_prefix_error good (loc :: rest) _ hg hv
    simp [maps_elevation, hall]
  · intro loc lat lng hla hlo hout
    have hv : validateLocations (loc :: rest) =
        .error ("latitude " ++ formatQ lat ++ " must be between -90 and 90") := by
      simp only [validateLocations, hla, hlo]
      rw [if_neg hout]
    have hall := validateLocations_prefix_error good (loc :: rest) _ hg hv
    simp [maps_elevation, hall]
  · intro loc lat lng hla hlo hin hout
    have hv : validateLocations (loc :: rest) =
        .error ("longitude " ++ formatQ lng ++
          " must be between -180 and 180") := by
      simp only [validateLocations, hla, hlo]
      rw [if_pos hin, if_neg hout]
    have hall := validateLocations_prefix_error good (loc :: rest) _ hg hv
    simp [maps_elevation, hall]

theorem elevation_first_invalid_aborts_check :
    maps_elevation (some "k") none (.ok [])
        [[("latitude", 10), ("longitude", 20)], [("latitude", 95), ("longitude", 0)]] =
      (.error "latitude 95 must be between -90 and 90", []) :=
  (elevation_first_invalid_aborts [[("latitude", 10), ("longitude", 20)]] []
      (by decide) (some "k") none (.ok [])).2.1
    [("latitude", 95), ("longitude", 0)] 95 0 rfl rfl (by norm_num)

/-- C2 counterexample: the validation message of a coordinate missing a
field does not identify the offending value — two calls whose sole,
distinct offending coordinates differ produce the identical generic
message (with zero upstream calls). -/
theorem elevation_generic_missing_field_message :
    maps_elevation none none (.ok []) [[("latitude", 7)]] =
      (.error "Each location must contain both latitude and longitude", []) ∧
    maps_elevation none none (.ok []) [[("latitude", 42)]] =
      (.error "Each location must contain both latitude and longitude", []) ∧
    (7 : ℚ) ≠ 42 :=
  ⟨rfl, rfl, by norm_num⟩

/-- C6 (amended): `maps_search_places` validates in this order — empty
query first, then out-of-range radius, then, for a location that is given
and non-empty, presence of both latitude and longitude, failing without
any upstream request when a field is missing; a location given as the
empty dict is treated like an absent one and skips the presence check. -/
theorem search_places_validation_order (apiKey : Option String)
    (gmaps : Option Client) (fx : Except String JValue) (query : String)
    (location : Option (List (String × ℚ))) (radius : Option ℤ) :
    (query = "" →
      maps_search_places apiKey gmaps fx query location radius =
        (.error "query parameter is required", [])) ∧
    (query ≠ "" → radiusBad radius = true →
      maps_search_places apiKey gmaps fx query location radius =
        (.error "radius must be between 1 and 50000 meters", [])) ∧
    (∀ cg : Client × Option Client, query ≠ "" → radiusBad radius = false →
      get_gmaps_client apiKey gmaps = .ok cg →
      locationTruthy location = true →
      (alookup "latitude" (location.getD []) = none ∨
        alookup "longitude" (location.getD []) = none) →
      maps_search_places apiKey gmaps fx query location radius =
        (.error
          "Places search error: location must contain both latitude and longitude",
         [])) := by
  refine ⟨?_, ?_, ?_⟩
  · intro h
    simp [maps_search_places, h]
  · intro h1 h2
    simp [maps_search_places, h1, h2]
  · intro cg h1 h2 hc hloc hmiss
    simp only [maps_search_places, if_neg h1, h2, Bool.false_eq_true,
      if_false, hc, hloc, if_true]
    rcases hmiss with hla | hlo
    · rw [hla]
      rfl
    · rw [hlo]
      cases alookup "latitude" (location.getD []) <;> rfl

theorem search_places_validation_order_check :
    maps_search_places (some "k") none (.ok (.obj [])) "" none none =
      (.error "query parameter is required", []) ∧
    maps_search_places (some "k") none (.ok (.obj [])) "pizza" none
        (some 60000) =
      (.error "radius must be between 1 and 50000 meters", []) ∧
    maps_search_places (some "k") none (.ok (.obj [])) "pizza"
        (some [("latitude", 1)]) (some 500) =
      (.error
        "Places search error: location must contain both latitude and longitude",
       []) :=
  ⟨(search_places_validation_order (some "k") none (.ok (.obj [])) ""
      none none).1 rfl,
   (search_places_validation_order (some "k") none (.ok (.obj [])) "pizza"
      none (some 60000)).2.1 (by decide) (by decide),
   (search_places_validation_order (some "k") none (.ok (.obj [])) "pizza"
      (some [("latitude", 1)]) (some 500)).2.2 (⟨"k"⟩, some ⟨"k"⟩)
     (by decide) (by decide) rfl rfl (Or.inr rfl)⟩

/-- C6 counterexample: a location argument that is given, but as the empty
dict, is missing both latitude and longitude yet raises no validation
error — the call succeeds and performs an upstream request. -/
theorem search_places_empty_location_not_validated :
    maps_search_places (some "k") none (.ok (.obj [("results", .arr [])]))
        "pizza" (some []) (some 500) =
      (.ok (.obj [("places", .arr [])]), [⟨"pizza", none, none⟩]) := by
  rfl

/-- C3 (amended): the location/radius bias is passed to the upstream places
call exactly when a non-empty location and a radius are both supplied; a
falsy location (absent or the empty dict) with any accepted radius, and a
field-complete location without a radius, are silently ignored, the
upstream call being identical to one with neither argument; with both
present the single upstream call carries the coordinate pair and the
radius. -/
theorem places_bias_requires_both (apiKey : Option String)
    (gmaps : Option Client) (fx : Except String JValue) (query : String)
    (hq : query ≠ "") :
    (∀ (location : Option (List (String × ℚ))) (radius : Option ℤ),
      locationTruthy location = false → radiusBad radius = false →
      maps_search_places apiKey gmaps fx query location radius =
        maps_search_places apiKey gmaps fx query none none) ∧
    (∀ (fs : List (String × ℚ)) (lat lng : ℚ),
      locationTruthy (some fs) = true →
      alookup "latitude" fs = some lat → alookup "longitude" fs = some lng →
      maps_search_places apiKey gmaps fx query (some fs) none =
        maps_search_places apiKey gmaps fx query none none) ∧
    (∀ (cg : Client × Option Client) (fs : List (String × ℚ))
        (lat lng : ℚ) (r : ℤ),
      get_gmaps_client apiKey gmaps = .ok cg →
      locationTruthy (some fs) = true →
      alookup "latitude" fs = some lat → alookup "longitude" fs = some lng →
      radiusBad (some r) = false →
      (maps_search_places apiKey gmaps fx query (some fs) (some r)).2 =
        [⟨query, some (lat, lng), some r⟩]) ∧
    (∀ cg : Client × Option Client, get_gmaps_client apiKey gmaps = .ok cg →
      (maps_search_places apiKey gmaps fx query none none).2 =
        [⟨query, none, none⟩]) := by
  refine ⟨?_, ?_, ?_, ?_⟩
  · intro location radius hloc hrad
    simp only [maps_search_places, if_neg hq, hloc, hrad,
      Bool.false_eq_true, if_false]
    rfl
  · intro fs lat lng hloc hla hlo
    simp only [maps_search_places, if_neg hq, hloc, if_true,
      Option.getD_some, hla, hlo, radiusTruthy, Bool.false_eq_true, if_false]
    rfl
  · intro cg fs lat lng r hc hloc hla hlo hrad
    have hr0 : r ≠ 0 := by
      intro h0
      rw [h0] at hrad
      simp [radiusBad] at hrad
    have hrt : radiusTruthy (some r) = true := by
      simp [radiusTruthy, hr0]
    simp only [maps_search_places, if_neg hq, hrad, Bool.false_eq_true,
      if_false, hc, hloc, if_true, Option.getD_some, hla, hlo, hrt]
    rcases fx with e | results
    · rfl
    · rcases h : placesProject results with e | v <;> simp [h]
  · intro cg hc
    simp only [maps_search_places, if_neg hq, radiusBad, Bool.false_eq_true,
      if_false, hc]
    rcases fx with e | results
    · rfl
    · rcases h : placesProject results with e | v <;> simp [locationTruthy, h]

theorem places_bias_requires_both_check :
    maps_search_places (some "k") none (.ok (.obj [("results", .arr [])]))
        "bar" (some [("latitude", 5), ("longitude", 6)]) none =
      maps_search_places (some "k") none (.ok (.obj [("results", .arr [])]))
        "bar" none none ∧
    (maps_search_places (some "k") none (.ok (.obj [("results", .arr [])]))
        "bar" (some [("latitude", 5), ("longitude", 6)]) (some 250)).2 =
      [⟨"bar", some (5, 6), some 250⟩] :=
  ⟨(places_bias_requires_both (some "k") none (.ok (.obj [("results", .arr [])]))
      "bar" (by decide)).2.1 [("latitude", 5), ("longitude", 6)] 5 6
      rfl rfl rfl,
   (places_bias_requires_both (some "k") none (.ok (.obj [("results", .arr [])]))
      "bar" (by decide)).2.2.1 (⟨"k"⟩, some ⟨"k"⟩)
      [("latitude", 5), ("longitude", 6)] 5 6 250 rfl rfl rfl rfl rfl⟩

/-- C3 counterexample: with a location that is supplied as the empty dict
and a radius that is supplied and accepted, the bias is not passed — the
upstream call is made with neither parameter, refuting the claimed
if-and-only-if reading of "both supplied". -/
theorem places_bias_empty_location_drops_bias :
    maps_search_places (some "k") none (.ok (.obj [("results", .arr [])]))
        "cafe" (some []) (some 1000) =
      maps_search_places (some "k") none (.ok (.obj [("results", .arr [])]))
        "cafe" none none ∧
    (maps_search_places (some "k") none (.ok (.obj [("results", .arr [])]))
        "cafe" (some []) (some 1000)).2 = [⟨"cafe", none, none⟩] :=
  ⟨rfl, rfl⟩

theorem exbind_ok {α β : Type} (a : α) (f : α → Except String β) :
    (Except.ok a : Except String α) >>= f = f a := rfl

theorem exbind_err {α β : Type} (e : String) (f : α → Except String β) :
    (Except.error e : Except String α) >>= f = .error e := rfl

theorem projectStep_spec (s : JValue) (h : stepOk s = true) :
    projectStep s = .ok (specStepProj s) := by
  cases s with
  | obj fs => rfl
  | null => simp [stepOk] at h
  | bool b => simp [stepOk] at h
  | num q => simp [stepOk] at h
  | str t => simp [stepOk] at h
  | arr xs => simp [stepOk] at h

theorem pyTraverse_steps (xs : List JValue) (h : xs.all stepOk = true) :
    pyTraverse projectStep xs = .ok (xs.map specStepProj) := by
  induction xs with
  | nil => rfl
  | cons x tl ih =>
    simp only [List.all_cons, Bool.and_eq_true] at h
    simp only [pyTraverse, projectStep_spec x h.1, ih h.2]
    rfl

theorem projectRouteCode_spec (r : JValue) (h : routeOk r = true) :
    projectRouteCode r = .ok (specRoute r) := by
  cases r with
  | null => simp [routeOk] at h
  | bool b => simp [routeOk] at h
  | num q => simp [routeOk] at h
  | str t => simp [routeOk] at h
  | arr xs => simp [routeOk] at h
  | obj fs =>
    have h2 : (match alookup "legs" fs with
        | some (.arr (leg :: _)) => legStepsOk leg
        | _ => false) = true := h
    cases hlegs : alookup "legs" fs with
    | none => rw [hlegs] at h2; simp at h2
    | some legsV =>
      rw [hlegs] at h2
      cases legsV with
      | null => simp at h2
      | bool b => simp at h2
      | num q => simp at h2
      | str t => simp at h2
      | obj gs => simp at h2
      | arr legs =>
        cases legs with
        | nil => simp at h2
        | cons leg rest =>
          have hls : legStepsOk leg = true := h2
          cases leg with
          | null => simp [legStepsOk] at hls
          | bool b => simp [legStepsOk] at hls
          | num q => simp [legStepsOk] at hls
          | str t => simp [legStepsOk] at hls
          | arr ys => simp [legStepsOk] at hls
          | obj lfs =>
            have hls2 : (match alookup "steps" lfs with
                | none => true
                | some (.arr xs) => xs.all stepOk
                | some _ => false) = true := hls
            cases hsteps : alookup "steps" lfs with
            | none =>
              simp only [projectRouteCode, specRoute, firstLeg, specLegSteps,
                jget, pyGet, pyIndex0, pyIter, pyTraverse, exbind_ok, hlegs,
                hsteps, Option.getD_some, Option.getD_none, List.map_nil]
            | some stepsV =>
              rw [hsteps] at hls2
              cases stepsV with
              | null => simp at hls2
              | bool b => simp at hls2
              | num q => simp at hls2
              | str t => simp at hls2
              | obj gs => simp at hls2
              | arr xs =>
                have hall : xs.all stepOk = true := hls2
                simp only [projectRouteCode, specRoute, firstLeg, specLegSteps,
                  jget, pyGet, pyIndex0, pyIter, exbind_ok, hlegs, hsteps,
                  Option.getD_some, pyTraverse_steps xs hall]

theorem pyTraverse_routes (rs : List JValue)
    (h : ∀ r ∈ rs, routeOk r = true) :
    pyTraverse projectRouteCode rs = .ok (rs.map specRoute) := by
  induction rs with
  | nil => rfl
  | cons r tl ih =>
    simp only [pyTraverse,
      projectRouteCode_spec r (h r (List.mem_cons_self r tl)),
      ih (fun x hx => h x (List.mem_cons_of_mem r hx))]
    rfl

/-- C7: for every upstream directions response whose routes carry a
non-empty leg list, the handler's output is exactly the spec-side
projection `specRoute` of each route — collapse to the first leg only,
with {summary, distance, duration, steps}, each step carrying the
upstream `html_instructions` verbatim as `instructions` together with its
distance, duration and travel mode. -/
theorem directions_first_leg_refinement (apiKey : Option String)
    (gmaps : Option Client) (cg : Client × Option Client)
    (hc : get_gmaps_client apiKey gmaps = .ok cg)
    (origin destination mode : String) (ho : origin ≠ "")
    (hd : destination ≠ "") (hm : mode ∈ valid_modes)
    (routes : List JValue) (hr : ∀ r ∈ routes, routeOk r = true) :
    maps_directions apiKey gmaps (.ok routes) origin destination mode =
      (.ok (.obj [("routes", .arr (routes.map specRoute))]),
       [⟨origin, destination, mode, "imperial"⟩]) := by
  simp only [maps_directions, if_neg ho, if_neg hd, if_pos hm, hc,
    pyTraverse_routes routes hr]

/-- C10: in `maps_directions`, a route whose legs key maps to the empty
list makes the entire call fail with the wrapped IndexError message even
when other routes are fine, whereas a route with no legs key at all is
projected to an entry with empty steps and null distance and duration. -/
theorem directions_empty_vs_missing_legs (apiKey : Option String)
    (gmaps : Option Client) (cg : Client × Option Client)
    (hc : get_gmaps_client apiKey gmaps = .ok cg)
    (origin destination mode : String) (ho : origin ≠ "")
    (hd : destination ≠ "") (hm : mode ∈ valid_modes) :
    (∀ (r1 v1 : JValue) (rest : List JValue) (fs : List (String × JValue)),
      projectRouteCode r1 = .ok v1 →
      alookup "legs" fs = some (.arr []) →
      maps_directions apiKey gmaps (.ok (r1 :: .obj fs :: rest))
          origin destination mode =
        (.error "Directions error: list index out of range",
         [⟨origin, destination, mode, "imperial"⟩])) ∧
    (∀ fs : List (String × JValue), alookup "legs" fs = none →
      maps_directions apiKey gmaps (.ok [.obj fs]) origin destination mode =
        (.ok (.obj [("routes", .arr [.obj
            [("summary", jget (.obj fs) "summary" (.str "")),
             ("distance", .null), ("duration", .null),
             ("steps", .arr [])]])]),
         [⟨origin, destination, mode, "imperial"⟩])) := by
  constructor
  · intro r1 v1 rest fs h1 hlegs
    have hbad : projectRouteCode (.obj fs) =
        .error "list index out of range" := by
      simp only [projectRouteCode, pyGet, hlegs, Option.getD_some]
      rfl
    simp only [maps_directions, if_neg ho, if_neg hd, if_pos hm, hc,
      pyTraverse, h1, hbad]
    rfl
  · intro fs hlegs
    have hgood : projectRouteCode (.obj fs) =
        .ok (.obj [("summary", jget (.obj fs) "summary" (.str "")),
                   ("distance", .null), ("duration", .null),
                   ("steps", .arr [])]) := by
      simp only [projectRouteCode, pyGet, jget, hlegs, Option.getD_none]
      rfl
    simp only [maps_directions, if_neg ho, if_neg hd, if_pos hm, hc,
      pyTraverse, hgood]
    rfl

theorem directions_first_leg_refinement_check :
    maps_directions (some "k") none (.ok [demoRoute]) "A" "B" "driving" =
      (.ok (.obj [("routes", .arr [specRoute demoRoute])]),
       [⟨"A", "B", "driving", "imperial"⟩]) :=
  directions_first_leg_refinement (some "k") none (⟨"k"⟩, some ⟨"k"⟩) rfl
    "A" "B" "driving" (by decide) (by decide) (by decide) [demoRoute]
    (by decide)

theorem directions_empty_vs_missing_legs_check :
    maps_directions (some "k") none
        (.ok [demoRoute, .obj [("legs", .arr [])]]) "A" "B" "walking" =
      (.error "Directions error: list index out of range",
       [⟨"A", "B", "walking", "imperial"⟩]) ∧
    maps_directions (some "k") none (.ok [.obj [("summary", .str "S")]])
        "A" "B" "walking" =
      (.ok (.obj [("routes", .arr [.obj
          [("summary", jget (.obj [("summary", .str "S")]) "summary" (.str "")),
           ("distance", .null), ("duration", .null), ("steps", .arr [])]])]),
       [⟨"A", "B", "walking", "imperial"⟩]) :=
  ⟨(directions_empty_vs_missing_legs (some "k") none (⟨"k"⟩, some ⟨"k"⟩) rfl
      "A" "B" "walking" (by decide) (by decide) (by decide)).1
     demoRoute (specRoute demoRoute) [] [("legs", .arr [])] rfl rfl,
   (directions_empty_vs_missing_legs (some "k") none (⟨"k"⟩, some ⟨"k"⟩) rfl
      "A" "B" "walking" (by decide) (by decide) (by decide)).2
     [("summary", .str "S")] rfl⟩
